import Mathlib

/-!
Shallow embedding of `src/add-link-header.interceptor.ts` from
wolfieorama/nestjs-pagination: the Link-header builder used by
`LinkHeaderInterceptor`.

JavaScript number semantics are modelled by the type `JSNum`: NaN, the two
infinities, and finite values kept exact as rationals (every finite value
this program produces is an integer).  The `Number(string)` coercion is
modelled on the fragment of strings relevant to this program: an optional
minus sign followed by decimal digits parses to that integer, the empty
string parses to 0 (as in JS), and every other string maps to NaN.
The external `format-link-header` npm dependency is modelled from the
spec's serialization description (section 4.1 rule 7 and section 6):
comma-separated entries of the form
`<url>; rel="relation"; per_page="limit"; page="page"`, in insertion
order (first, last, then next and prev when present).
-/

namespace NestjsPagination

/-- Model of a JavaScript number: NaN, Infinity, -Infinity, or a finite
value (kept exact as a rational). -/
inductive JSNum where
  | nan : JSNum
  | inf : JSNum
  | negInf : JSNum
  | num : ℚ → JSNum
deriving DecidableEq

/-- JS addition on modelled numbers: NaN is absorbing, opposite infinities
give NaN, an infinity otherwise dominates. -/
def jsAdd : JSNum → JSNum → JSNum
  | .nan, _ => .nan
  | _, .nan => .nan
  | .inf, .negInf => .nan
  | .negInf, .inf => .nan
  | .inf, _ => .inf
  | _, .inf => .inf
  | .negInf, _ => .negInf
  | _, .negInf => .negInf
  | .num a, .num b => .num (a + b)

/-- JS negation on modelled numbers. -/
def jsNeg : JSNum → JSNum
  | .nan => .nan
  | .inf => .negInf
  | .negInf => .inf
  | .num a => .num (-a)

/-- JS subtraction on modelled numbers. -/
def jsSub (a b : JSNum) : JSNum := jsAdd a (jsNeg b)

/-- JS division on modelled numbers: NaN is absorbing, 0/0 is NaN, a
nonzero finite value divided by zero gives a signed infinity, a finite
value divided by an infinity gives 0. -/
def jsDiv : JSNum → JSNum → JSNum
  | .nan, _ => .nan
  | _, .nan => .nan
  | .inf, .inf => .nan
  | .inf, .negInf => .nan
  | .negInf, .inf => .nan
  | .negInf, .negInf => .nan
  | .inf, .num b => if b < 0 then .negInf else .inf
  | .negInf, .num b => if b < 0 then .inf else .negInf
  | .num _, .inf => .num 0
  | .num _, .negInf => .num 0
  | .num a, .num b =>
    if b = 0 then (if a = 0 then .nan else if a < 0 then .negInf else .inf)
    else .num (a / b)

/-- Model of `Math.floor`: fixes NaN and the infinities, floors finite
values. -/
def jsFloor : JSNum → JSNum
  | .nan => .nan
  | .inf => .inf
  | .negInf => .negInf
  | .num q => .num (⌊q⌋ : ℚ)

/-- JS `<=` comparison on modelled numbers: false whenever NaN is
involved, otherwise the usual order with the infinities at the ends. -/
def jsLe : JSNum → JSNum → Bool
  | .nan, _ => false
  | _, .nan => false
  | .negInf, _ => true
  | _, .inf => true
  | .inf, _ => false
  | .num _, .negInf => false
  | .num a, .num b => decide (a ≤ b)

/-- JS `===` comparison on modelled numbers: false whenever NaN is
involved (NaN === NaN is false in JS). -/
def jsStrictEq : JSNum → JSNum → Bool
  | .nan, _ => false
  | _, .nan => false
  | .inf, .inf => true
  | .negInf, .negInf => true
  | .num a, .num b => decide (a = b)
  | _, _ => false

/-- Numeric value of a decimal digit character. -/
def digitVal (c : Char) : Nat := c.toNat - Char.toNat '0'

/-- Value of a list of decimal digit characters read left to right. -/
def digitsToNat (cs : List Char) : Nat :=
  cs.foldl (fun acc c => 10 * acc + digitVal c) 0

/-- Model of the JS `Number(string)` coercion on the fragment relevant to
this program: the empty string is 0 (as in JS), an optional minus sign
followed by decimal digits is that integer, and every other string is NaN
(JS additionally parses decimal points, exponents and hex literals, none
of which this development ever feeds in). -/
def jsNumber (s : String) : JSNum :=
  match s.data with
  | [] => JSNum.num 0
  | '-' :: rest =>
    if !rest.isEmpty && rest.all Char.isDigit then
      JSNum.num (-(digitsToNat rest : ℚ))
    else JSNum.nan
  | cs =>
    if cs.all Char.isDigit then JSNum.num (digitsToNat cs : ℚ)
    else JSNum.nan

/-- Model of JS number-to-string conversion as used by template literals
and `.toString()`.  Every finite number this program prints is an
integer; the fractional branch is unreachable here and kept only for
totality. -/
def jsToString : JSNum → String
  | .nan => "NaN"
  | .inf => "Infinity"
  | .negInf => "-Infinity"
  | .num q => if q.den = 1 then toString q.num else toString q

/-- The `LinkOptions` interface of the source: `page` and `limit` arrive
string-encoded, `totalDocs` is a number (always an integer count in
practice, modelled as such). -/
structure LinkOptions where
  page : String
  limit : String
  resourceUrl : String
  totalDocs : Int
deriving DecidableEq

/-- The `Relation` union type of the source. -/
inductive Relation where
  | first : Relation
  | next : Relation
  | prev : Relation
  | last : Relation
deriving DecidableEq

/-- The `rel` attribute text of a relation. -/
def relString : Relation → String
  | .first => "first"
  | .next => "next"
  | .prev => "prev"
  | .last => "last"

/-- A `format-link-header` link object as built by `buildLink`: keys in
insertion order are url, rel, per_page, page. -/
structure Link where
  url : String
  rel : String
  per_page : String
  page : String
deriving DecidableEq

/-- Embedding of `buildLink` (source lines 95-128): starts from the link
object `{url: resourceUrl, rel, per_page: limit, page: page}` and then
patches `url` (and for prev/next also `page`) according to the relation,
finally appending the `per_page` query parameter. -/
def buildLink (rel : Relation) (linkOptions : LinkOptions) : Link :=
  let page : JSNum := jsNumber linkOptions.page
  let link : Link :=
    { url := linkOptions.resourceUrl
      rel := relString rel
      per_page := linkOptions.limit
      page := linkOptions.page }
  let link : Link :=
    match rel with
    | .first => { link with url := link.url ++ "?page=1" }
    | .prev =>
      { link with
        page := jsToString (jsSub page (.num 1))
        url := link.url ++ ("?page=" ++ jsToString (jsSub page (.num 1))) }
    | .last =>
      { link with
        url := link.url ++ ("?page=" ++ jsToString (jsAdd (jsFloor
          (jsDiv (.num (linkOptions.totalDocs : ℚ))
            (jsNumber linkOptions.limit))) (.num 1))) }
    | .next =>
      { link with
        page := jsToString (jsAdd page (.num 1))
        url := link.url ++ ("?page=" ++ jsToString (jsAdd page (.num 1))) }
  { link with url := link.url ++ ("&per_page=" ++ linkOptions.limit) }

/-- The link object assembled by `setLinkHeader` (source lines 74-85):
`first` and `last` always, `next` only when `hasNextPage`, `prev` only
when not `isFirstPage`.  JS object insertion order is first, last, next,
prev. -/
structure Links where
  first : Link
  last : Link
  next : Option Link
  prev : Option Link
deriving DecidableEq

/-- Embedding of the body of `setLinkHeader` up to serialization (source
lines 70-85): computes `hasNextPage` and `isFirstPage` with JS number
semantics and assembles the link object. -/
def linkObject (linkOptions : LinkOptions) : Links :=
  let page : JSNum := jsNumber linkOptions.page
  let hasNextPage : Bool :=
    jsLe page (jsFloor (jsDiv (.num (linkOptions.totalDocs : ℚ))
      (jsNumber linkOptions.limit)))
  let isFirstPage : Bool := jsStrictEq page (.num 1)
  let base : Links :=
    { first := buildLink .first linkOptions
      last := buildLink .last linkOptions
      next := none
      prev := none }
  let withNext : Links :=
    if hasNextPage then { base with next := some (buildLink .next linkOptions) }
    else base
  if !isFirstPage then
    { withNext with prev := some (buildLink .prev linkOptions) }
  else withNext

/-- Modelled from the spec: serialization of one link entry by the
external `format-link-header` dependency, per the spec's convention
(section 4.1 rule 7): the URL in angle brackets, then the remaining
attributes in object-key order. -/
def formatLink (l : Link) : String :=
  "<" ++ l.url ++ ">; rel=\"" ++ l.rel ++ "\"; per_page=\"" ++ l.per_page
    ++ "\"; page=\"" ++ l.page ++ "\""

/-- Comma-and-space join of the serialized entries. -/
def joinLinks : List String → String
  | [] => ""
  | [x] => x
  | x :: xs => x ++ ", " ++ joinLinks xs

/-- The entries of a link object in JS object-key (insertion) order. -/
def linksList (links : Links) : List Link :=
  [links.first, links.last] ++ links.next.toList ++ links.prev.toList

/-- Modelled from the spec: the external `formatLinkHeader` call
(source line 87) serializing the whole link object. -/
def formatLinkHeader (links : Links) : String :=
  joinLinks ((linksList links).map formatLink)

/-- Embedding of `setLinkHeader` (source lines 69-88): assemble the link
object and serialize it. -/
def setLinkHeader (linkOptions : LinkOptions) : String :=
  formatLinkHeader (linkObject linkOptions)

/-- One string occurs inside another (with explicit split points). -/
def containsStr (s t : String) : Prop := ∃ u v, s = u ++ t ++ v

/-! Helper lemmas: how the assembled link object projects onto the four
relations, and how the JS-number operations act on integer values. -/

lemma linkObject_first (o : LinkOptions) :
    (linkObject o).first = buildLink Relation.first o := by
  unfold linkObject
  dsimp only
  split <;> split <;> rfl

lemma linkObject_last (o : LinkOptions) :
    (linkObject o).last = buildLink Relation.last o := by
  unfold linkObject
  dsimp only
  split <;> split <;> rfl

lemma linkObject_next (o : LinkOptions) :
    (linkObject o).next =
      if jsLe (jsNumber o.page)
          (jsFloor (jsDiv (JSNum.num (o.totalDocs : ℚ)) (jsNumber o.limit))) then
        some (buildLink Relation.next o)
      else none := by
  unfold linkObject
  dsimp only
  split <;> split <;> simp_all

lemma linkObject_prev (o : LinkOptions) :
    (linkObject o).prev =
      if jsStrictEq (jsNumber o.page) (JSNum.num 1) then none
      else some (buildLink Relation.prev o) := by
  unfold linkObject
  dsimp only
  rcases h : jsStrictEq (jsNumber o.page) (JSNum.num 1) <;>
    (simp [h]; try (split <;> rfl))

lemma buildLink_first_url (o : LinkOptions) :
    (buildLink Relation.first o).url =
      o.resourceUrl ++ "?page=1" ++ "&per_page=" ++ o.limit := by
  simp only [buildLink, String.append_assoc]

lemma buildLink_first_page (o : LinkOptions) :
    (buildLink Relation.first o).page = o.page := rfl

lemma buildLink_last_url (o : LinkOptions) :
    (buildLink Relation.last o).url =
      o.resourceUrl ++ "?page=" ++
        jsToString (jsAdd (jsFloor (jsDiv (JSNum.num (o.totalDocs : ℚ))
          (jsNumber o.limit))) (JSNum.num 1)) ++ "&per_page=" ++ o.limit := by
  simp [buildLink, String.append_assoc]

lemma buildLink_last_page (o : LinkOptions) :
    (buildLink Relation.last o).page = o.page := rfl

lemma buildLink_next_url (o : LinkOptions) :
    (buildLink Relation.next o).url =
      o.resourceUrl ++ "?page=" ++
        jsToString (jsAdd (jsNumber o.page) (JSNum.num 1)) ++
        "&per_page=" ++ o.limit := by
  simp [buildLink, String.append_assoc]

lemma buildLink_next_page (o : LinkOptions) :
    (buildLink Relation.next o).page =
      jsToString (jsAdd (jsNumber o.page) (JSNum.num 1)) := rfl

lemma buildLink_prev_url (o : LinkOptions) :
    (buildLink Relation.prev o).url =
      o.resourceUrl ++ "?page=" ++
        jsToString (jsSub (jsNumber o.page) (JSNum.num 1)) ++
        "&per_page=" ++ o.limit := by
  simp [buildLink, String.append_assoc]

lemma buildLink_prev_page (o : LinkOptions) :
    (buildLink Relation.prev o).page =
      jsToString (jsSub (jsNumber o.page) (JSNum.num 1)) := rfl

lemma floor_rat_div (t l : ℤ) (hl1 : 1 ≤ l) : ⌊(t : ℚ) / (l : ℚ)⌋ = t / l := by
  have h0 : 0 ≤ l := le_trans zero_le_one hl1
  have hc : ((l.toNat : ℕ) : ℚ) = (l : ℚ) := by exact_mod_cast Int.toNat_of_nonneg h0
  rw [← hc, Rat.floor_intCast_div_natCast, Int.toNat_of_nonneg h0]

lemma jsFloorDiv_num (t l : ℤ) (hl1 : 1 ≤ l) :
    jsFloor (jsDiv (JSNum.num (t : ℚ)) (JSNum.num (l : ℚ))) =
      JSNum.num ((t / l : ℤ) : ℚ) := by
  have hne : (l : ℚ) ≠ 0 := by
    exact_mod_cast (show l ≠ 0 by omega)
  simp only [jsDiv, if_neg hne, jsFloor, floor_rat_div t l hl1]

lemma jsLe_int (a b : ℤ) :
    jsLe (JSNum.num (a : ℚ)) (JSNum.num (b : ℚ)) = true ↔ a ≤ b := by
  simp only [jsLe, decide_eq_true_eq]
  exact Int.cast_le

lemma jsStrictEq_int_one (a : ℤ) :
    jsStrictEq (JSNum.num (a : ℚ)) (JSNum.num 1) = true ↔ a = 1 := by
  simp only [jsStrictEq, decide_eq_true_eq]
  exact_mod_cast Iff.rfl

lemma jsAdd_one_int (a : ℤ) :
    jsAdd (JSNum.num (a : ℚ)) (JSNum.num 1) = JSNum.num ((a + 1 : ℤ) : ℚ) := by
  simp [jsAdd]

lemma jsSub_one_int (a : ℤ) :
    jsSub (JSNum.num (a : ℚ)) (JSNum.num 1) = JSNum.num ((a - 1 : ℤ) : ℚ) := by
  simp [jsSub, jsNeg, jsAdd]
  ring

lemma jsToString_int (k : ℤ) : jsToString (JSNum.num (k : ℚ)) = toString k := by
  simp [jsToString, Rat.den_intCast, Rat.num_intCast]

lemma jsLe_int_decide (a b : ℤ) :
    jsLe (JSNum.num (a : ℚ)) (JSNum.num (b : ℚ)) = decide (a ≤ b) := by
  simp only [jsLe]
  rw [decide_eq_decide]
  exact Int.cast_le

lemma linkObject_next_int (o : LinkOptions) (p l : ℤ)
    (hp : jsNumber o.page = JSNum.num (p : ℚ))
    (hl : jsNumber o.limit = JSNum.num (l : ℚ)) (hl1 : 1 ≤ l) :
    (linkObject o).next =
      if p ≤ o.totalDocs / l then some (buildLink Relation.next o) else none := by
  rw [linkObject_next, hp, hl, jsFloorDiv_num o.totalDocs l hl1]
  by_cases hc : p ≤ o.totalDocs / l
  · rw [if_pos ((jsLe_int p (o.totalDocs / l)).mpr hc), if_pos hc]
  · rw [if_neg (fun h => hc ((jsLe_int p (o.totalDocs / l)).mp h)), if_neg hc]

lemma linkObject_prev_int (o : LinkOptions) (p : ℤ)
    (hp : jsNumber o.page = JSNum.num (p : ℚ)) :
    (linkObject o).prev =
      if p = 1 then none else some (buildLink Relation.prev o) := by
  rw [linkObject_prev, hp]
  by_cases hc : p = 1
  · rw [if_pos ((jsStrictEq_int_one p).mpr hc), if_pos hc]
  · rw [if_neg (fun h => hc ((jsStrictEq_int_one p).mp h)), if_neg hc]

lemma containsStr_trans {s m t : String} (h1 : containsStr s m)
    (h2 : containsStr m t) : containsStr s t := by
  obtain ⟨u, v, rfl⟩ := h1
  obtain ⟨w, x, rfl⟩ := h2
  exact ⟨u ++ w, x ++ v, by simp [String.append_assoc]⟩

lemma joinLinks_mem : ∀ (xs : List String) (x : String), x ∈ xs →
    containsStr (joinLinks xs) x := by
  intro xs
  induction xs with
  | nil => intro x hx; simp at hx
  | cons a ys ih =>
    intro x hx
    rcases List.mem_cons.mp hx with rfl | hmem
    · cases ys with
      | nil => exact ⟨"", "", by simp [joinLinks]⟩
      | cons b zs =>
        exact ⟨"", ", " ++ joinLinks (b :: zs), by simp [joinLinks, String.append_assoc]⟩
    · obtain ⟨u, v, huv⟩ := ih x hmem
      cases ys with
      | nil => simp at hmem
      | cons b zs =>
        exact ⟨a ++ ", " ++ u, v, by simp [joinLinks, huv, String.append_assoc]⟩

lemma setLinkHeader_contains {o : LinkOptions} {l : Link}
    (hmem : l ∈ linksList (linkObject o)) :
    containsStr (setLinkHeader o) (formatLink l) :=
  joinLinks_mem _ _ (List.mem_map_of_mem formatLink hmem)

lemma formatLink_contains_page (l : Link) : containsStr (formatLink l) l.page :=
  ⟨"<" ++ l.url ++ ">; rel=\"" ++ l.rel ++ "\"; per_page=\"" ++ l.per_page
    ++ "\"; page=\"", "\"", by simp [formatLink, String.append_assoc]⟩

lemma formatLink_contains_url (l : Link) : containsStr (formatLink l) l.url :=
  ⟨"<", ">; rel=\"" ++ l.rel ++ "\"; per_page=\"" ++ l.per_page
    ++ "\"; page=\"" ++ l.page ++ "\"", by simp [formatLink, String.append_assoc]⟩

/-! Claim theorems. -/

/-- Claim C1, counterexample: at page "2", limit "10", totalDocs 25 the
first link's page attribute is "2" (the input page), not "1", and the
last link's page attribute is likewise not lastPage = 3; the claim as
stated about the page attributes is false. -/
theorem c1_counterexample :
    ¬ ((linkObject ⟨"2", "10", "/items", 25⟩).first.page = "1" ∧
       (linkObject ⟨"2", "10", "/items", 25⟩).last.page = "3") := by
  intro h
  have h1 := h.1
  rw [linkObject_first, buildLink_first_page] at h1
  exact absurd h1 (by decide)

/-- Claim C1 (amended): for page ≥ 1, limit ≥ 1, totalDocs ≥ 0, the first
link's URL carries page query parameter 1 and the last link's URL carries
page query parameter lastPage = totalDocs / limit + 1; the page
attributes of the first and last link entries are the input page string
(the current page), not 1 and lastPage. -/
theorem c1_first_last (o : LinkOptions) (p l : ℤ)
    (_hp : jsNumber o.page = JSNum.num (p : ℚ))
    (hl : jsNumber o.limit = JSNum.num (l : ℚ))
    (_hp1 : 1 ≤ p) (hl1 : 1 ≤ l) (_ht : 0 ≤ o.totalDocs) :
    (linkObject o).first.url =
      o.resourceUrl ++ "?page=1" ++ "&per_page=" ++ o.limit ∧
    (linkObject o).last.url =
      o.resourceUrl ++ "?page=" ++ toString (o.totalDocs / l + 1) ++
        "&per_page=" ++ o.limit ∧
    (linkObject o).first.page = o.page ∧
    (linkObject o).last.page = o.page := by
  refine ⟨?_, ?_, ?_, ?_⟩
  · rw [linkObject_first, buildLink_first_url]
  · rw [linkObject_last, buildLink_last_url, hl,
      jsFloorDiv_num o.totalDocs l hl1, jsAdd_one_int, jsToString_int]
  · rw [linkObject_first, buildLink_first_page]
  · rw [linkObject_last, buildLink_last_page]

/-- Claim C1 witness: the amended statement evaluated at page "2",
limit "10", totalDocs 25. -/
theorem c1_witness :
    (linkObject ⟨"2", "10", "/items", 25⟩).first.url =
      "/items" ++ "?page=1" ++ "&per_page=" ++ "10" ∧
    (linkObject ⟨"2", "10", "/items", 25⟩).last.url =
      "/items" ++ "?page=" ++ toString ((25 : ℤ) / 10 + 1) ++
        "&per_page=" ++ "10" ∧
    (linkObject ⟨"2", "10", "/items", 25⟩).first.page = "2" ∧
    (linkObject ⟨"2", "10", "/items", 25⟩).last.page = "2" :=
  c1_first_last ⟨"2", "10", "/items", 25⟩ 2 10 (by decide) (by decide)
    (by decide) (by decide) (by decide)

/-- Claim C2: for page ≥ 1, limit ≥ 1, totalDocs ≥ 0, a next entry is
present iff page ≤ totalDocs / limit (floor division), the entry (when
present) is buildLink next, and its URL is
resourceUrl?page=(page+1)&per_page=limit. -/
theorem c2_next (o : LinkOptions) (p l : ℤ)
    (hp : jsNumber o.page = JSNum.num (p : ℚ))
    (hl : jsNumber o.limit = JSNum.num (l : ℚ))
    (_hp1 : 1 ≤ p) (hl1 : 1 ≤ l) (_ht : 0 ≤ o.totalDocs) :
    ((linkObject o).next.isSome = true ↔ p ≤ o.totalDocs / l) ∧
    ((linkObject o).next = none ∨
      (linkObject o).next = some (buildLink Relation.next o)) ∧
    (buildLink Relation.next o).url =
      o.resourceUrl ++ "?page=" ++ toString (p + 1) ++ "&per_page=" ++ o.limit := by
  have hnext := linkObject_next_int o p l hp hl hl1
  refine ⟨?_, ?_, ?_⟩
  · rw [hnext]
    by_cases hc : p ≤ o.totalDocs / l <;> simp [hc]
  · rw [hnext]
    by_cases hc : p ≤ o.totalDocs / l <;> simp [hc]
  · rw [buildLink_next_url, hp, jsAdd_one_int, jsToString_int]

/-- Claim C2 witness: at page "1", limit "10", totalDocs 25 the next
entry is present and its URL is /items?page=2&per_page=10. -/
theorem c2_witness :
    (linkObject ⟨"1", "10", "/items", 25⟩).next.isSome = true ∧
    (buildLink Relation.next ⟨"1", "10", "/items", 25⟩).url =
      "/items" ++ "?page=" ++ toString ((1 : ℤ) + 1) ++ "&per_page=" ++ "10" := by
  have h := c2_next ⟨"1", "10", "/items", 25⟩ 1 10 (by decide) (by decide)
    (by decide) (by decide) (by decide)
  exact ⟨h.1.mpr (by decide), h.2.2⟩

/-- Claim C3: when totalDocs is the exact multiple page * limit (the
current page is the last full page), the next entry is still emitted,
pointing at page + 1, even though that page holds zero items. -/
theorem c3_exact_multiple (o : LinkOptions) (p l : ℤ)
    (hp : jsNumber o.page = JSNum.num (p : ℚ))
    (hl : jsNumber o.limit = JSNum.num (l : ℚ))
    (_hp1 : 1 ≤ p) (hl1 : 1 ≤ l)
    (hmul : o.totalDocs = p * l) :
    (linkObject o).next = some (buildLink Relation.next o) ∧
    (buildLink Relation.next o).page = toString (p + 1) ∧
    (buildLink Relation.next o).url =
      o.resourceUrl ++ "?page=" ++ toString (p + 1) ++ "&per_page=" ++ o.limit := by
  have hdiv : o.totalDocs / l = p := by
    rw [hmul]
    exact Int.mul_ediv_cancel p (by omega)
  refine ⟨?_, ?_, ?_⟩
  · rw [linkObject_next_int o p l hp hl hl1, hdiv, if_pos le_rfl]
  · rw [buildLink_next_page, hp, jsAdd_one_int, jsToString_int]
  · rw [buildLink_next_url, hp, jsAdd_one_int, jsToString_int]

/-- Claim C3 witness: page "1", limit "10", totalDocs 10 still emits a
next entry pointing at page 2. -/
theorem c3_witness :
    (linkObject ⟨"1", "10", "/items", 10⟩).next =
      some (buildLink Relation.next ⟨"1", "10", "/items", 10⟩) ∧
    (buildLink Relation.next ⟨"1", "10", "/items", 10⟩).page =
      toString ((1 : ℤ) + 1) ∧
    (buildLink Relation.next ⟨"1", "10", "/items", 10⟩).url =
      "/items" ++ "?page=" ++ toString ((1 : ℤ) + 1) ++ "&per_page=" ++ "10" :=
  c3_exact_multiple ⟨"1", "10", "/items", 10⟩ 1 10 (by decide) (by decide)
    (by decide) (by decide) (by decide)

/-- Claim C4, counterexample: with limit "0" the function does not fail:
it still returns a header string (JS division by zero yields NaN here,
not an exception), so "fails if and only if limit is zero" is false. -/
theorem c4_counterexample :
    setLinkHeader ⟨"1", "0", "/items", 0⟩ =
      "</items?page=1&per_page=0>; rel=\"first\"; per_page=\"0\"; page=\"1\", " ++
      "</items?page=NaN&per_page=0>; rel=\"last\"; per_page=\"0\"; page=\"1\"" := by
  decide

/-- Claim C4 (amended): the function never raises; on limit = 0 it
returns a malformed string instead of failing: the last link URL carries
page=Infinity when totalDocs > 0 and page=NaN when totalDocs = 0.
Callers wanting a well-formed header must still guarantee limit ≥ 1. -/
theorem c4_limit_zero (o : LinkOptions)
    (hl : jsNumber o.limit = JSNum.num 0) :
    (0 < o.totalDocs →
      (linkObject o).last.url =
        o.resourceUrl ++ "?page=" ++ "Infinity" ++ "&per_page=" ++ o.limit) ∧
    (o.totalDocs = 0 →
      (linkObject o).last.url =
        o.resourceUrl ++ "?page=" ++ "NaN" ++ "&per_page=" ++ o.limit) := by
  constructor
  · intro ht
    rw [linkObject_last, buildLink_last_url, hl]
    have hdiv : jsDiv (JSNum.num (o.totalDocs : ℚ)) (JSNum.num 0) = JSNum.inf := by
      have hne : (o.totalDocs : ℚ) ≠ 0 := by
        exact_mod_cast (by omega : o.totalDocs ≠ 0)
      have hnlt : ¬ ((o.totalDocs : ℚ) < 0) := by
        push_neg
        exact_mod_cast le_of_lt ht
      simp [jsDiv, hne, hnlt]
    rw [hdiv]
    rfl
  · intro ht
    rw [linkObject_last, buildLink_last_url, hl, ht]
    rfl

/-- Claim C4 witness: the amended statement at page "1", limit "0",
totalDocs 5: the last link URL is /items?page=Infinity&per_page=0. -/
theorem c4_witness :
    (linkObject ⟨"1", "0", "/items", 5⟩).last.url =
      "/items" ++ "?page=" ++ "Infinity" ++ "&per_page=" ++ "0" :=
  (c4_limit_zero ⟨"1", "0", "/items", 5⟩ (by decide)).1 (by decide)

/-- Claim C5: for page ≥ 1, limit ≥ 1, totalDocs ≥ 0, a prev entry is
present iff page > 1, and the prev entry's page attribute and URL page
parameter both equal page - 1. -/
theorem c5_prev (o : LinkOptions) (p l : ℤ)
    (hp : jsNumber o.page = JSNum.num (p : ℚ))
    (_hl : jsNumber o.limit = JSNum.num (l : ℚ))
    (hp1 : 1 ≤ p) (_hl1 : 1 ≤ l) (_ht : 0 ≤ o.totalDocs) :
    ((linkObject o).prev.isSome = true ↔ 1 < p) ∧
    ((linkObject o).prev = none ∨
      (linkObject o).prev = some (buildLink Relation.prev o)) ∧
    (buildLink Relation.prev o).page = toString (p - 1) ∧
    (buildLink Relation.prev o).url =
      o.resourceUrl ++ "?page=" ++ toString (p - 1) ++ "&per_page=" ++ o.limit := by
  have hprev := linkObject_prev_int o p hp
  refine ⟨?_, ?_, ?_, ?_⟩
  · rw [hprev]
    by_cases hc : p = 1
    · simp [hc]
    · simp [hc]
      omega
  · rw [hprev]
    by_cases hc : p = 1 <;> simp [hc]
  · rw [buildLink_prev_page, hp, jsSub_one_int, jsToString_int]
  · rw [buildLink_prev_url, hp, jsSub_one_int, jsToString_int]

/-- Claim C5 witness: at page "3", limit "10", totalDocs 25 the prev
entry is present with page attribute "2" and URL /items?page=2&per_page=10. -/
theorem c5_witness :
    (linkObject ⟨"3", "10", "/items", 25⟩).prev.isSome = true ∧
    (buildLink Relation.prev ⟨"3", "10", "/items", 25⟩).page =
      toString ((3 : ℤ) - 1) ∧
    (buildLink Relation.prev ⟨"3", "10", "/items", 25⟩).url =
      "/items" ++ "?page=" ++ toString ((3 : ℤ) - 1) ++ "&per_page=" ++ "10" := by
  have h := c5_prev ⟨"3", "10", "/items", 25⟩ 3 10 (by decide) (by decide)
    (by decide) (by decide) (by decide)
  exact ⟨h.1.mpr (by decide), h.2.2.1, h.2.2.2⟩

/-- Claim C6, counterexample: at page "2", limit "1", totalDocs 0 a prev
entry is still emitted (the prev condition ignores totalDocs), so "only
first and last are present for totalDocs = 0" is false for pages > 1. -/
theorem c6_counterexample :
    (linkObject ⟨"2", "1", "/items", 0⟩).prev ≠ none := by
  decide

/-- Claim C6 (amended): for totalDocs = 0, page ≥ 1, limit ≥ 1 there is
never a next entry, the first and last URLs both point at page 1, and a
prev entry is present exactly when page > 1 (the original claim wrongly
ruled out prev as well). -/
theorem c6_total_docs_zero (o : LinkOptions) (p l : ℤ)
    (hp : jsNumber o.page = JSNum.num (p : ℚ))
    (hl : jsNumber o.limit = JSNum.num (l : ℚ))
    (hp1 : 1 ≤ p) (hl1 : 1 ≤ l) (ht : o.totalDocs = 0) :
    (linkObject o).next = none ∧
    (linkObject o).first.url =
      o.resourceUrl ++ "?page=1" ++ "&per_page=" ++ o.limit ∧
    (linkObject o).last.url =
      o.resourceUrl ++ "?page=" ++ toString (1 : ℤ) ++ "&per_page=" ++ o.limit ∧
    ((linkObject o).prev.isSome = true ↔ 1 < p) := by
  have hdiv : o.totalDocs / l = 0 := by
    rw [ht]
    exact Int.zero_ediv l
  refine ⟨?_, ?_, ?_, ?_⟩
  · rw [linkObject_next_int o p l hp hl hl1, hdiv, if_neg (by omega)]
  · rw [linkObject_first, buildLink_first_url]
  · rw [linkObject_last, buildLink_last_url, hl,
      jsFloorDiv_num o.totalDocs l hl1, jsAdd_one_int, jsToString_int, hdiv]
    norm_num
  · rw [linkObject_prev_int o p hp]
    by_cases hc : p = 1
    · simp [hc]
    · simp [hc]
      omega

/-- Claim C6 witness: the amended statement at page "1", limit "100",
totalDocs 0: no next, both URLs point at page 1, no prev. -/
theorem c6_witness :
    (linkObject ⟨"1", "100", "/items", 0⟩).next = none ∧
    (linkObject ⟨"1", "100", "/items", 0⟩).first.url =
      "/items" ++ "?page=1" ++ "&per_page=" ++ "100" ∧
    (linkObject ⟨"1", "100", "/items", 0⟩).last.url =
      "/items" ++ "?page=" ++ toString (1 : ℤ) ++ "&per_page=" ++ "100" ∧
    ((linkObject ⟨"1", "100", "/items", 0⟩).prev.isSome = true ↔ 1 < (1 : ℤ)) :=
  c6_total_docs_zero ⟨"1", "100", "/items", 0⟩ 1 100 (by decide) (by decide)
    (by decide) (by decide) (by decide)

/-- Claim C7: for totalDocs ≥ 0 and limit ≥ 1, lastPage =
totalDocs / limit + 1 is at least 1, and it is the page number in the
last link's URL. -/
theorem c7_last_page (o : LinkOptions) (l : ℤ)
    (hl : jsNumber o.limit = JSNum.num (l : ℚ))
    (hl1 : 1 ≤ l) (ht : 0 ≤ o.totalDocs) :
    1 ≤ o.totalDocs / l + 1 ∧
    (linkObject o).last.url =
      o.resourceUrl ++ "?page=" ++ toString (o.totalDocs / l + 1) ++
        "&per_page=" ++ o.limit := by
  constructor
  · have h0 : 0 ≤ o.totalDocs / l := Int.ediv_nonneg ht (by omega)
    omega
  · rw [linkObject_last, buildLink_last_url, hl,
      jsFloorDiv_num o.totalDocs l hl1, jsAdd_one_int, jsToString_int]

/-- Claim C7 witness: at limit "5", totalDocs 17 the last link URL points
at page 17 / 5 + 1 = 4. -/
theorem c7_witness :
    1 ≤ (17 : ℤ) / 5 + 1 ∧
    (linkObject ⟨"2", "5", "/docs", 17⟩).last.url =
      "/docs" ++ "?page=" ++ toString ((17 : ℤ) / 5 + 1) ++ "&per_page=" ++ "5" :=
  c7_last_page ⟨"2", "5", "/docs", 17⟩ 5 (by decide) (by decide) (by decide)

/-- Claim C8: for every input, the serialized header contains the first
and last entries, every link URL is the resource URL followed by a
leading question mark, the page parameter, an ampersand and the per_page
parameter in that order, and any next or prev entry is the corresponding
buildLink result. -/
theorem c8_shape (o : LinkOptions) :
    containsStr (setLinkHeader o) (formatLink (buildLink Relation.first o)) ∧
    containsStr (setLinkHeader o) (formatLink (buildLink Relation.last o)) ∧
    (buildLink Relation.first o).url =
      o.resourceUrl ++ "?page=1" ++ "&per_page=" ++ o.limit ∧
    (buildLink Relation.last o).url =
      o.resourceUrl ++ "?page=" ++
        jsToString (jsAdd (jsFloor (jsDiv (JSNum.num (o.totalDocs : ℚ))
          (jsNumber o.limit))) (JSNum.num 1)) ++ "&per_page=" ++ o.limit ∧
    (buildLink Relation.next o).url =
      o.resourceUrl ++ "?page=" ++
        jsToString (jsAdd (jsNumber o.page) (JSNum.num 1)) ++
        "&per_page=" ++ o.limit ∧
    (buildLink Relation.prev o).url =
      o.resourceUrl ++ "?page=" ++
        jsToString (jsSub (jsNumber o.page) (JSNum.num 1)) ++
        "&per_page=" ++ o.limit ∧
    ((linkObject o).next = none ∨
      (linkObject o).next = some (buildLink Relation.next o)) ∧
    ((linkObject o).prev = none ∨
      (linkObject o).prev = some (buildLink Relation.prev o)) := by
  refine ⟨?_, ?_, buildLink_first_url o, buildLink_last_url o,
    buildLink_next_url o, buildLink_prev_url o, ?_, ?_⟩
  · exact setLinkHeader_contains (by simp [linksList, linkObject_first])
  · exact setLinkHeader_contains (by simp [linksList, linkObject_last])
  · rw [linkObject_next]
    split
    · right
      rfl
    · left
      rfl
  · rw [linkObject_prev]
    split
    · left
      rfl
    · right
      rfl

/-- Claim C9: when the page or per_page string is non-numeric, the
coercion yields NaN, no failure occurs, and the NaN propagates into the
returned header string. -/
theorem c9_nan_propagates (o : LinkOptions)
    (h : jsNumber o.page = JSNum.nan ∨ jsNumber o.limit = JSNum.nan) :
    containsStr (setLinkHeader o) "NaN" := by
  rcases h with hp | hl
  · have hprev : (linkObject o).prev = some (buildLink Relation.prev o) := by
      rw [linkObject_prev, hp]
      rfl
    have hmem : buildLink Relation.prev o ∈ linksList (linkObject o) := by
      simp [linksList, hprev]
    have hpage : (buildLink Relation.prev o).page = "NaN" := by
      rw [buildLink_prev_page, hp]
      rfl
    have h2 := formatLink_contains_page (buildLink Relation.prev o)
    rw [hpage] at h2
    exact containsStr_trans (setLinkHeader_contains hmem) h2
  · have hmem : buildLink Relation.last o ∈ linksList (linkObject o) := by
      simp [linksList, linkObject_last]
    have hurl : containsStr (buildLink Relation.last o).url "NaN" := by
      have hjs : jsToString (jsAdd (jsFloor (jsDiv (JSNum.num (o.totalDocs : ℚ))
          JSNum.nan)) (JSNum.num 1)) = "NaN" := rfl
      rw [buildLink_last_url, hl, hjs]
      refine ⟨o.resourceUrl ++ "?page=", "&per_page=" ++ o.limit, ?_⟩
      simp only [String.append_assoc]
    exact containsStr_trans (containsStr_trans (setLinkHeader_contains hmem)
      (formatLink_contains_url (buildLink Relation.last o))) hurl

/-- Claim C9 witness: with the non-numeric page string "abc" the header
still comes out as a string and contains NaN. -/
theorem c9_witness :
    containsStr (setLinkHeader ⟨"abc", "10", "/items", 25⟩) "NaN" :=
  c9_nan_propagates ⟨"abc", "10", "/items", 25⟩ (Or.inl (by decide))

/-- Claim C10: the prev condition is Number(page) different from 1, with
no lower clamp: whenever the page string parses to an integer p ≤ 0, a
prev entry is emitted whose page attribute and URL page parameter are
p - 1, below the valid page range. -/
theorem c10_prev_no_clamp (o : LinkOptions) (p : ℤ)
    (hp : jsNumber o.page = JSNum.num (p : ℚ)) :
    ((linkObject o).prev.isSome = true ↔ p ≠ 1) ∧
    (p ≤ 0 →
      (linkObject o).prev = some (buildLink Relation.prev o) ∧
      (buildLink Relation.prev o).page = toString (p - 1) ∧
      (buildLink Relation.prev o).url =
        o.resourceUrl ++ "?page=" ++ toString (p - 1) ++ "&per_page=" ++ o.limit) := by
  have hprev := linkObject_prev_int o p hp
  constructor
  · rw [hprev]
    by_cases hc : p = 1 <;> simp [hc]
  · intro hple
    refine ⟨?_, ?_, ?_⟩
    · rw [hprev, if_neg (by omega)]
    · rw [buildLink_prev_page, hp, jsSub_one_int, jsToString_int]
    · rw [buildLink_prev_url, hp, jsSub_one_int, jsToString_int]

/-- Claim C10 witness: at page "0" a prev entry is emitted with page
attribute "-1" and URL /items?page=-1&per_page=10. -/
theorem c10_witness :
    (linkObject ⟨"0", "10", "/items", 25⟩).prev.isSome = true ∧
    ((linkObject ⟨"0", "10", "/items", 25⟩).prev =
        some (buildLink Relation.prev ⟨"0", "10", "/items", 25⟩) ∧
      (buildLink Relation.prev ⟨"0", "10", "/items", 25⟩).page =
        toString ((0 : ℤ) - 1) ∧
      (buildLink Relation.prev ⟨"0", "10", "/items", 25⟩).url =
        "/items" ++ "?page=" ++ toString ((0 : ℤ) - 1) ++ "&per_page=" ++ "10") := by
  have h := c10_prev_no_clamp ⟨"0", "10", "/items", 25⟩ 0 (by decide)
  exact ⟨h.1.mpr (by decide), h.2 (by decide)⟩

end NestjsPagination
